import Mathlib

/-!
Verification of the JsonRpcClient connection and synchronous-call core.

Shallow embedding of the connection-lifecycle and synchronous-call bridging
subsystem of the JsonRpcClient repository:

* `SynchronousBlockingQueue` (src/SynchronousBlockingQueue.cpp) — the
  single-slot blocking handoff,
* `WebSocket` (src/WebSocket.cpp) — the transport session: connection state,
  writability, the FIFO outbound queue, the LWS event dispatcher
  `OnWebSocketEvent` and the reconnect watchdog `RunWatchdog`,
* `WebSocketClient` (src/WebSocketClient.cpp) — the facade exposing
  `SendSynchronousRequest` and teardown.

Pure data is translated one C++ member to one Lean field; each C++ member
function becomes a state-passing Lean function.  Calls into libwebsockets are
modelled by their observable effect on the session: `lws_write` appends the
payload to a `writes` transcript (the transport stub's observation),
`lws_client_connect` is an `Option` parameter for its returned handle,
`lws_create_context` a parameter for the fresh context.  Blocking (`Take`,
condition-variable waits) is modelled by splitting a blocking call into its
sequential phases and by returning `Option`/flags that record whether the
call would block.
-/

namespace JsonRpcClient

/-! ## SynchronousBlockingQueue (src/SynchronousBlockingQueue.cpp)

The C++ class has fields `ready_to_unlock_ : bool` (initially false) and
`element_ : E`; we instantiate `E` at `String` as the repository does
(`template class SynchronousBlockingQueue<std::string>`).  The mutex and
condition variable only serialize the two phases of `Take` against `Offer`;
the state they guard is exactly the two fields below. -/

structure SynchronousBlockingQueue where
  ready_to_unlock : Bool
  element : String
  deriving DecidableEq, Repr

namespace SynchronousBlockingQueue

/-- Constructor: `ready_to_unlock_(false)`; `element_` is a
default-constructed `std::string`, i.e. `""`. -/
def mk0 : SynchronousBlockingQueue :=
  { ready_to_unlock := false, element := "" }

/-- Models `Offer(e)`: under the lock, `element_ = e; ready_to_unlock_ = true;`
then unlock and notify one waiter. -/
def Offer (q : SynchronousBlockingQueue) (e : String) : SynchronousBlockingQueue :=
  { q with element := e, ready_to_unlock := true }

/-- First phase of `Take()`: the unconditional `ready_to_unlock_ = false;`
executed before entering the wait loop. -/
def takeReset (q : SynchronousBlockingQueue) : SynchronousBlockingQueue :=
  { q with ready_to_unlock := false }

/-- Second phase of `Take()`: `while (!ready_to_unlock_) cv_.wait(lk); return
element_;` — if the flag is set the stored element is returned, otherwise the
caller blocks (`none`). -/
def takeWait (q : SynchronousBlockingQueue) : Option String :=
  if q.ready_to_unlock then some q.element else none

/-- A whole sequential `Take()` call: reset the flag, then wait on it.
`none` means the call blocks until some further `Offer` arrives. -/
def Take (q : SynchronousBlockingQueue) : Option String :=
  takeWait (takeReset q)

end SynchronousBlockingQueue

/-! ## WebSocket session state (src/WebSocket.h, src/WebSocket.cpp)

One Lean field per C++ member that the claims touch.  The immutable endpoint
identity (`host_`, `port_`, `protocol_name_`, `path_`) is carried verbatim.
Raw pointers `lws_context *context_` and `lws *handle_` become `Option Nat`
(`none` = `nullptr`; a `some` wraps an opaque identifier).  The transcript
`writes` records, in order, every payload handed to `lws_write` by
`WriteMessageToWebSocket` — it is the observation of the transport stub, not
a C++ member.  `writableRequested` records the pending effect of
`lws_callback_on_writable`. -/

/-- Mirrors `enum WebSocketConnectState { DISCONNECTED = 0, CONNECTING, CONNECTED }`. -/
inductive WebSocketConnectState where
  | DISCONNECTED
  | CONNECTING
  | CONNECTED
  deriving DecidableEq, Repr

structure WebSocket where
  host : String
  port : Int
  protocol_name : String
  path : String
  context : Option Nat
  handle : Option Nat
  connection_state : WebSocketConnectState
  writable : Bool
  enqueued_messages : List String
  queue : SynchronousBlockingQueue
  watchdog_thread_running : Bool
  /-- transcript of `lws_write` calls, oldest first (transport observation) -/
  writes : List String
  /-- whether `lws_callback_on_writable` has been requested (transport obs.) -/
  writableRequested : Bool
  deriving DecidableEq, Repr

namespace WebSocket

/-- The constructor's member-initializer list: `context_(nullptr)`,
`handle_(nullptr)`, `connection_state_(DISCONNECTED)`, `writable_(false)`,
an empty `enqueued_messages_` vector, a fresh handoff, and (once the spawned
watchdog runs `SetWatchDogThreadStarted`) `watchdog_thread_running_ = true`. -/
def mk0 (host : String) (port : Int) (protocol : String) (path : String) : WebSocket :=
  { host := host
    port := port
    protocol_name := protocol
    path := path
    context := none
    handle := none
    connection_state := WebSocketConnectState.DISCONNECTED
    writable := false
    enqueued_messages := []
    queue := SynchronousBlockingQueue.mk0
    watchdog_thread_running := true
    writes := []
    writableRequested := false }

/-- Models `HasEnqueuedMessages()`: `!enqueued_messages_.empty()`. -/
def HasEnqueuedMessages (s : WebSocket) : Bool :=
  !s.enqueued_messages.isEmpty

/-- Models `EnqueueMessage(message)`: `enqueued_messages_.push_back(message)`. -/
def EnqueueMessage (s : WebSocket) (message : String) : WebSocket :=
  { s with enqueued_messages := s.enqueued_messages ++ [message] }

/-- Models `RemoveOldestEnqueuedMessage()`: a default-constructed `message` (`""`);
if the queue is non-empty, `message = enqueued_messages_[0]` and
`enqueued_messages_.erase(begin())`; returns `message`. -/
def RemoveOldestEnqueuedMessage (s : WebSocket) : WebSocket × String :=
  if HasEnqueuedMessages s then
    ({ s with enqueued_messages := s.enqueued_messages.tail },
     s.enqueued_messages.headD "")
  else
    (s, "")

/-- Models `WriteMessageToWebSocket(message)`: hands the payload to `lws_write`
(recorded on the `writes` transcript), sets `writable_ = 0`, and calls
`lws_callback_on_writable(handle_)`. -/
def WriteMessageToWebSocket (s : WebSocket) (message : String) : WebSocket :=
  { s with
    writes := s.writes ++ [message]
    writable := false
    writableRequested := true }

/-- Models `SendAsync(message)`: under the session mutex, if `writable_` write the
message immediately, else enqueue it. -/
def SendAsync (s : WebSocket) (message : String) : WebSocket :=
  if s.writable then
    WriteMessageToWebSocket s message
  else
    EnqueueMessage s message

end WebSocket

/-! ## Event dispatcher `OnWebSocketEvent` and watchdog `RunWatchdog`

`OnWebSocketEvent` is the LWS callback; each `case` of its `switch` becomes a
function on the session.  The watchdog's Disconnected branch takes the fresh
context produced by `lws_create_context` and the `Option`al handle returned
by `lws_client_connect` as parameters. -/

namespace WebSocket

/-- Branch `LWS_CALLBACK_CLIENT_ESTABLISHED`: under the mutex `SetConnectState(CONNECTED)`
and `SetHandle(wsi)`; then `lws_callback_on_writable(wsi)`.  The callback's
`wsi` is non-null (the function returns early on a null `wsi`). -/
def onEstablished (s : WebSocket) (wsi : Nat) : WebSocket :=
  { s with
    connection_state := WebSocketConnectState.CONNECTED
    handle := some wsi
    writableRequested := true }

/-- Branch `LWS_CALLBACK_CLIENT_CONNECTION_ERROR`: `SetConnectState(DISCONNECTED)`.
Neither `handle_` nor `writable_` is touched. -/
def onConnectionError (s : WebSocket) : WebSocket :=
  { s with connection_state := WebSocketConnectState.DISCONNECTED }

/-- Branch `LWS_CALLBACK_CLOSED`: `SetConnectState(DISCONNECTED)`.  Neither
`handle_` nor `writable_` is touched. -/
def onClosed (s : WebSocket) : WebSocket :=
  { s with connection_state := WebSocketConnectState.DISCONNECTED }

/-- Branch `LWS_CALLBACK_CLIENT_RECEIVE`: invokes the incoming-message handler on
the payload.  The external handler delivers to the handoff via `Offer`; we
model the repository-side effect: no session field other than the handoff
can change, and the handler that the client wires up Offers the payload. -/
def onReceive (s : WebSocket) (message : String) : WebSocket :=
  { s with queue := s.queue.Offer message }

/-- Branch `LWS_CALLBACK_CLIENT_WRITEABLE`: if there are enqueued messages, remove
the oldest and write it; otherwise `SetWritable(true)`. -/
def onWritable (s : WebSocket) : WebSocket :=
  if HasEnqueuedMessages s then
    let (s1, message) := RemoveOldestEnqueuedMessage s
    WriteMessageToWebSocket s1 message
  else
    { s with writable := true }

/-- The body of one `RunWatchdog` loop iteration taken with
`GetConnectState() == DISCONNECTED`: after the 50 ms `usleep`,
`lws_create_context` yields `newContext`, which is stored via `SetContext`
under the mutex; `lws_client_connect(context, host, port, 0, path, ...)`
returns `connectHandle`; if it is non-null, `SetConnectState(CONNECTING)`.
The returned handle is not stored in `handle_`. -/
def runWatchdogDisconnectedBody (s : WebSocket) (newContext : Nat)
    (connectHandle : Option Nat) : WebSocket :=
  let s1 := { s with context := some newContext }
  if connectHandle.isSome then
    { s1 with connection_state := WebSocketConnectState.CONNECTING }
  else
    s1

/-- One full `RunWatchdog` loop iteration: when not Disconnected the thread
merely runs `lws_service(context, 500)` (which dispatches the events modelled
separately and mutates nothing itself); when Disconnected it runs the
reconnect body. -/
def runWatchdogIteration (s : WebSocket) (newContext : Nat)
    (connectHandle : Option Nat) : WebSocket :=
  if s.connection_state ≠ WebSocketConnectState.DISCONNECTED then
    s
  else
    runWatchdogDisconnectedBody s newContext connectHandle

end WebSocket

/-! ## Event traces

Everything that mutates the session after construction is one of: a caller's
`SendAsync`, one of the dispatcher's event branches, or a watchdog
iteration.  An event trace is a list of these, applied oldest first. -/

inductive WsEvent where
  | sendAsync (message : String)
  | established (wsi : Nat)
  | connectionError
  | closed
  | receive (message : String)
  | writable
  | watchdog (newContext : Nat) (connectHandle : Option Nat)
  deriving DecidableEq, Repr

/-- Apply one event to the session. -/
def applyEvent (s : WebSocket) : WsEvent → WebSocket
  | WsEvent.sendAsync m => s.SendAsync m
  | WsEvent.established wsi => s.onEstablished wsi
  | WsEvent.connectionError => s.onConnectionError
  | WsEvent.closed => s.onClosed
  | WsEvent.receive m => s.onReceive m
  | WsEvent.writable => s.onWritable
  | WsEvent.watchdog ctx h => s.runWatchdogIteration ctx h

/-- Run a whole event trace from a given session state. -/
def runEvents (s : WebSocket) (evs : List WsEvent) : WebSocket :=
  evs.foldl applyEvent s

/-- The session as constructed (`WebSocket::WebSocket`), for an arbitrary but
fixed endpoint. -/
def initialWebSocket : WebSocket :=
  WebSocket.mk0 "localhost" 8080 "jsonrpc" "/"

/-- A session state is reachable if some event trace leads to it from the
freshly constructed session. -/
def ReachableWS (s : WebSocket) : Prop :=
  ∃ evs : List WsEvent, runEvents initialWebSocket evs = s

/-! ## WebSocketClient facade (src/WebSocketClient.cpp)

`SendSynchronousRequest` returns early with an empty `std::string` when not
connected; otherwise it calls `SendAsync(request)` and then blocks in
`GetQueue()->Take()` until the event thread Offers a response.  The value
that `Take()` eventually produces is abstracted as the parameter
`takeResult`; the boolean in the result records whether the call reached
`SendAsync` (and hence blocked on `Take`). -/

/-- Models `WebSocketClient::SendSynchronousRequest(request)`. -/
def SendSynchronousRequest (s : WebSocket) (request : String) (takeResult : String) :
    WebSocket × String × Bool :=
  if s.connection_state ≠ WebSocketConnectState.CONNECTED then
    (s, "", false)
  else
    (s.SendAsync request, takeResult, true)

/-! ## Teardown (WebSocketClient::CloseWebSocket and WebSocket::~WebSocket)

Teardown is a fixed sequence of side-effecting steps; we record it as an
abstract action trace, oldest first. -/

inductive TeardownAction where
  /-- the drain loop `while (HasEnqueuedMessages()) sleep(1);` -/
  | pollUntilQueueEmpty
  /-- destructor line `enqueued_messages_.clear();` -/
  | clearEnqueuedMessages
  /-- `StopWatchDogThread()` setting `watchdog_thread_running_ = false` -/
  | stopWatchdog
  /-- `pthread_join(watchdog_thread_, NULL);` -/
  | joinWatchdogThread
  /-- `incoming_message_handler_ = nullptr;` -/
  | releaseMessageHandler
  /-- `handle_ = nullptr;` -/
  | releaseHandle
  /-- `context_ = nullptr;` -/
  | releaseContext
  /-- `pthread_mutex_destroy(&mutex_);` -/
  | destroyMutex
  /-- `delete queue_;` releasing the handoff -/
  | releaseHandoff
  deriving DecidableEq, BEq, Repr

/-- Action trace performed by `WebSocketClient::CloseWebSocket()`: the drain
loop, then `delete web_socket_`, which runs `WebSocket::~WebSocket()` — in
source order: clear the vector, stop the watchdog flag, join the thread,
null the handler, handle and context, destroy the mutex, delete the
handoff. -/
def closeWebSocketActions : List TeardownAction :=
  [TeardownAction.pollUntilQueueEmpty,
   TeardownAction.clearEnqueuedMessages,
   TeardownAction.stopWatchdog,
   TeardownAction.joinWatchdogThread,
   TeardownAction.releaseMessageHandler,
   TeardownAction.releaseHandle,
   TeardownAction.releaseContext,
   TeardownAction.destroyMutex,
   TeardownAction.releaseHandoff]

/-! ## Auxiliary definitions for the theorems -/

/-- Repeated `SendAsync`, in list order (oldest first). -/
def sendAll (s : WebSocket) (msgs : List String) : WebSocket :=
  msgs.foldl WebSocket.SendAsync s

/-- Serve `n` successive `LWS_CALLBACK_CLIENT_WRITEABLE` events. -/
def serveWritableEvents : WebSocket → Nat → WebSocket
  | s, 0 => s
  | s, n + 1 => serveWritableEvents s.onWritable n

/-- Invariant relating writability to the outbound queue: whenever the
session is writable, the outbound queue is empty. -/
def WritableInv (s : WebSocket) : Prop :=
  s.writable = true → s.enqueued_messages = []

/-- Recognizes the Established dispatcher event. -/
def isEstablishedEvent : WsEvent → Bool
  | WsEvent.established _ => true
  | _ => false

/-- Session reached by Established(1); Writable (with an empty queue, so the
`else` branch sets `writable = true`); Closed.  Exhibits `writable = true`
while Disconnected. -/
def c5BadState : WebSocket :=
  runEvents initialWebSocket [WsEvent.established 1, WsEvent.writable, WsEvent.closed]

/-- Session reached by Established(1) then Writable: Connected and writable. -/
def connectedWritableWS : WebSocket :=
  runEvents initialWebSocket [WsEvent.established 1, WsEvent.writable]

/-- Session reached by Established(1) then Closed: the handle set by
Established is never cleared, so it survives the transition back to
Disconnected. -/
def c6BadState : WebSocket :=
  runEvents initialWebSocket [WsEvent.established 1, WsEvent.closed]

/-! ## Theorems -/

/-- C2 (counterexample): with Take modelled exactly as the claim itself
describes it — first reset `delivered` to `false`, then wait for it — a
fully completed `Offer("x")` followed by a call to `Take()` does NOT return
`"x"`: the reset discards the delivery and the wait blocks (`none`), so the
claimed round trip fails. -/
theorem C2_counterexample :
    SynchronousBlockingQueue.Take
        (SynchronousBlockingQueue.Offer SynchronousBlockingQueue.mk0 "x") = none ∧
    SynchronousBlockingQueue.Take
        (SynchronousBlockingQueue.Offer SynchronousBlockingQueue.mk0 "x") ≠ some "x" := by
  constructor
  · rfl
  · intro h
    simp [SynchronousBlockingQueue.Take, SynchronousBlockingQueue.takeWait,
      SynchronousBlockingQueue.takeReset, SynchronousBlockingQueue.Offer] at h

/-- C2 (amended): the round trip holds in the order the running system
produces it — `Take()` first performs its reset and is waiting, and THEN
`Offer(x)` arrives: the wait phase of that `Take` returns `x`.  A completed
`Offer(x)` followed by a whole `Take()` instead blocks, because `Take`
unconditionally resets the `ready_to_unlock_` flag before waiting. -/
theorem C2_amended (q : SynchronousBlockingQueue) (x : String) :
    SynchronousBlockingQueue.takeWait
      (SynchronousBlockingQueue.Offer (SynchronousBlockingQueue.takeReset q) x) = some x := by
  simp [SynchronousBlockingQueue.takeWait, SynchronousBlockingQueue.Offer,
    SynchronousBlockingQueue.takeReset]

/-- C8: two `Offer`s with no intervening consumption overwrite the slot; the
resulting handoff state is exactly the state produced by the second `Offer`
alone, so only the second value is observable (the wait phase of a pending
`Take` yields it). -/
theorem C8_offer_overwrites (q : SynchronousBlockingQueue) (x y : String) :
    (q.Offer x).Offer y = q.Offer y ∧
    ((q.Offer x).Offer y).element = y ∧
    SynchronousBlockingQueue.takeWait ((q.Offer x).Offer y) = some y := by
  refine ⟨rfl, rfl, ?_⟩
  simp [SynchronousBlockingQueue.takeWait, SynchronousBlockingQueue.Offer]

/-- C1: `SendSynchronousRequest` returns the empty string with the session
untouched (no `SendAsync`, no blocking `Take`) whenever the connection state
is not `CONNECTED`; otherwise it performs `SendAsync(request)`, blocks on
`Take()`, and returns the value `Take()` produced. -/
theorem C1_sendSynchronousRequest (s : WebSocket) (request takeResult : String) :
    (s.connection_state ≠ WebSocketConnectState.CONNECTED →
      SendSynchronousRequest s request takeResult = (s, "", false)) ∧
    (s.connection_state = WebSocketConnectState.CONNECTED →
      SendSynchronousRequest s request takeResult = (s.SendAsync request, takeResult, true)) := by
  constructor <;> intro h <;> simp [SendSynchronousRequest, h]

/-- C1 (witness): on the freshly constructed (Disconnected) session the call
returns `""` without reaching `SendAsync`; on a session that has seen
Established it sends and returns the handed-off response. -/
theorem C1_sendSynchronousRequest_witness :
    SendSynchronousRequest initialWebSocket "ping" "pong"
      = (initialWebSocket, "", false) ∧
    SendSynchronousRequest (initialWebSocket.onEstablished 1) "ping" "pong"
      = ((initialWebSocket.onEstablished 1).SendAsync "ping", "pong", true) :=
  ⟨(C1_sendSynchronousRequest initialWebSocket "ping" "pong").1 (by decide),
   (C1_sendSynchronousRequest (initialWebSocket.onEstablished 1) "ping" "pong").2 (by decide)⟩

/-- C10: calling `RemoveOldestEnqueuedMessage` on a session with an empty
outbound queue is total and harmless — it returns the default-constructed
empty string and the session is returned unchanged. -/
theorem C10_removeOldest_empty (s : WebSocket) (h : s.enqueued_messages = []) :
    s.RemoveOldestEnqueuedMessage = (s, "") := by
  simp [WebSocket.RemoveOldestEnqueuedMessage, WebSocket.HasEnqueuedMessages, h]

/-- C10 (witness): concrete evaluation on the freshly constructed session. -/
theorem C10_removeOldest_empty_witness :
    initialWebSocket.RemoveOldestEnqueuedMessage = (initialWebSocket, "") :=
  C10_removeOldest_empty initialWebSocket rfl

/-- C3: `SendAsync` writes the message immediately (appending it to the
transport transcript) and clears `writable` when the session is writable;
otherwise it appends the message at the tail of the outbound queue and
performs no write. -/
theorem C3_sendAsync_behavior (s : WebSocket) (m : String) :
    (s.writable = true →
        (s.SendAsync m).writes = s.writes ++ [m] ∧
        (s.SendAsync m).writable = false ∧
        (s.SendAsync m).enqueued_messages = s.enqueued_messages) ∧
    (s.writable = false →
        (s.SendAsync m).enqueued_messages = s.enqueued_messages ++ [m] ∧
        (s.SendAsync m).writes = s.writes ∧
        (s.SendAsync m).writable = false) := by
  constructor <;> intro h <;>
    simp [WebSocket.SendAsync, WebSocket.WriteMessageToWebSocket,
      WebSocket.EnqueueMessage, h]

/-- C3 (witness): on a connected writable session the payload is written at
once; on the fresh (non-writable) session it is enqueued. -/
theorem C3_sendAsync_behavior_witness :
    (connectedWritableWS.SendAsync "a").writes = connectedWritableWS.writes ++ ["a"] ∧
    (initialWebSocket.SendAsync "a").enqueued_messages
      = initialWebSocket.enqueued_messages ++ ["a"] :=
  ⟨((C3_sendAsync_behavior connectedWritableWS "a").1 (by decide)).1,
   ((C3_sendAsync_behavior initialWebSocket "a").2 rfl).1⟩

/-- Sending while not writable only ever takes the enqueue branch: the
outbound queue grows by the sent messages in order, the session stays
non-writable, and nothing reaches the transport. -/
theorem sendAll_not_writable (msgs : List String) (s : WebSocket)
    (h : s.writable = false) :
    (sendAll s msgs).enqueued_messages = s.enqueued_messages ++ msgs ∧
    (sendAll s msgs).writable = false ∧
    (sendAll s msgs).writes = s.writes := by
  induction msgs generalizing s with
  | nil => simp [sendAll, h]
  | cons m rest ih =>
    have hstep : sendAll s (m :: rest) = sendAll (s.SendAsync m) rest := rfl
    have hsend : s.SendAsync m = s.EnqueueMessage m := by
      simp [WebSocket.SendAsync, h]
    rw [hstep, hsend]
    have hw2 : (s.EnqueueMessage m).writable = false := h
    obtain ⟨h1, h2, h3⟩ := ih (s.EnqueueMessage m) hw2
    refine ⟨?_, h2, h3⟩
    rw [h1]
    simp [WebSocket.EnqueueMessage]

/-- Serving one writable event per queued message drains the queue in order:
the transport transcript grows by exactly the queue contents, oldest
first. -/
theorem serveWritableEvents_drains (q : List String) (s : WebSocket)
    (h : s.enqueued_messages = q) :
    (serveWritableEvents s q.length).writes = s.writes ++ q ∧
    (serveWritableEvents s q.length).enqueued_messages = [] := by
  induction q generalizing s with
  | nil => simpa [serveWritableEvents] using h
  | cons m rest ih =>
    have hstate : s.onWritable =
        { s with enqueued_messages := rest, writes := s.writes ++ [m],
                 writable := false, writableRequested := true } := by
      simp [WebSocket.onWritable, WebSocket.HasEnqueuedMessages,
        WebSocket.RemoveOldestEnqueuedMessage, WebSocket.WriteMessageToWebSocket, h]
    have hserve : serveWritableEvents s (m :: rest).length
        = serveWritableEvents s.onWritable rest.length := rfl
    rw [hserve, hstate]
    obtain ⟨h1, h2⟩ := ih
      { s with enqueued_messages := rest, writes := s.writes ++ [m],
               writable := false, writableRequested := true } rfl
    refine ⟨?_, h2⟩
    rw [h1]
    simp

/-- C4: the outbound queue is strictly FIFO — `EnqueueMessage` appends at the
tail, `RemoveOldestEnqueuedMessage` removes and returns the head, and any
batch of messages enqueued while not writable is written to the transport in
exactly enqueue order by one writable event per message. -/
theorem C4_fifo_outbound (s : WebSocket) (msgs : List String)
    (hw : s.writable = false) (hq : s.enqueued_messages = []) :
    (∀ t : WebSocket, ∀ m : String,
        (t.EnqueueMessage m).enqueued_messages = t.enqueued_messages ++ [m]) ∧
    (∀ t : WebSocket, ∀ m : String, ∀ rest : List String,
        t.enqueued_messages = m :: rest →
          t.RemoveOldestEnqueuedMessage.2 = m ∧
          t.RemoveOldestEnqueuedMessage.1.enqueued_messages = rest) ∧
    (serveWritableEvents (sendAll s msgs) msgs.length).writes = s.writes ++ msgs := by
  refine ⟨fun t m => rfl, ?_, ?_⟩
  · intro t m rest ht
    constructor <;>
      simp [WebSocket.RemoveOldestEnqueuedMessage, WebSocket.HasEnqueuedMessages, ht]
  · obtain ⟨h1, h2, h3⟩ := sendAll_not_writable msgs s hw
    have h4 := (serveWritableEvents_drains msgs (sendAll s msgs) (by rw [h1, hq]; simp)).1
    rw [h4, h3]

/-- C4 (witness): enqueue "a", "b", "c" on the fresh (non-writable) session
and serve three writable events — the transport observes exactly
a, b, c in that order. -/
theorem C4_fifo_outbound_witness :
    (serveWritableEvents (sendAll initialWebSocket ["a", "b", "c"]) 3).writes
      = initialWebSocket.writes ++ ["a", "b", "c"] :=
  (C4_fifo_outbound initialWebSocket ["a", "b", "c"] rfl rfl).2.2

/-- One step preserves the writable/queue invariant: every operation that
sets `writable` to `true` (only the empty-queue Writable branch) does so with
an empty queue, and every enqueue happens with `writable = false`. -/
theorem writableInv_applyEvent {s : WebSocket} (h : WritableInv s) (e : WsEvent) :
    WritableInv (applyEvent s e) := by
  cases e with
  | sendAsync m =>
    by_cases hw : s.writable = true
    · intro hw2
      simp [applyEvent, WebSocket.SendAsync, hw,
        WebSocket.WriteMessageToWebSocket] at hw2
    · intro hw2
      simp [applyEvent, WebSocket.SendAsync, hw, WebSocket.EnqueueMessage] at hw2
  | established wsi =>
    intro hw2
    simp [applyEvent, WebSocket.onEstablished] at hw2 ⊢
    exact h hw2
  | connectionError =>
    intro hw2
    simp [applyEvent, WebSocket.onConnectionError] at hw2 ⊢
    exact h hw2
  | closed =>
    intro hw2
    simp [applyEvent, WebSocket.onClosed] at hw2 ⊢
    exact h hw2
  | receive m =>
    intro hw2
    simp [applyEvent, WebSocket.onReceive] at hw2 ⊢
    exact h hw2
  | writable =>
    by_cases hq : WebSocket.HasEnqueuedMessages s = true
    · intro hw2
      simp [applyEvent, WebSocket.onWritable, hq,
        WebSocket.RemoveOldestEnqueuedMessage, WebSocket.WriteMessageToWebSocket] at hw2
    · intro _
      simp [applyEvent, WebSocket.onWritable, hq]
      simpa [WebSocket.HasEnqueuedMessages] using hq
  | watchdog ctx hdl =>
    by_cases hs : s.connection_state = WebSocketConnectState.DISCONNECTED
    · cases hdl with
      | none =>
        intro hw2
        simp [applyEvent, WebSocket.runWatchdogIteration,
          WebSocket.runWatchdogDisconnectedBody, hs] at hw2 ⊢
        exact h hw2
      | some wsi =>
        intro hw2
        simp [applyEvent, WebSocket.runWatchdogIteration,
          WebSocket.runWatchdogDisconnectedBody, hs] at hw2 ⊢
        exact h hw2
    · intro hw2
      simp [applyEvent, WebSocket.runWatchdogIteration, hs] at hw2 ⊢
      exact h hw2

/-- A whole event trace preserves the writable/queue invariant. -/
theorem writableInv_runEvents (evs : List WsEvent) {s : WebSocket}
    (h : WritableInv s) : WritableInv (runEvents s evs) := by
  induction evs generalizing s with
  | nil => exact h
  | cons e rest ih => exact ih (writableInv_applyEvent h e)

/-- C5 (counterexample): the trace Established(1); Writable; Closed is
reachable and leaves `writable = true` while the connection state is
`DISCONNECTED` — the claimed invariant component `state == Connected` fails,
because the ConnectionError and Closed branches never clear `writable`. -/
theorem C5_counterexample :
    ReachableWS c5BadState ∧ c5BadState.writable = true ∧
    c5BadState.connection_state = WebSocketConnectState.DISCONNECTED :=
  ⟨⟨[WsEvent.established 1, WsEvent.writable, WsEvent.closed], rfl⟩, rfl, rfl⟩

/-- C5 (amended): in every reachable session state, `writable = true` implies
the outbound queue is empty.  The other conjunct of the claimed invariant
(`state == Connected`) does not hold, since disconnect events leave
`writable` untouched. -/
theorem C5_writable_implies_queue_empty (s : WebSocket) (h : ReachableWS s)
    (hw : s.writable = true) : s.enqueued_messages = [] := by
  obtain ⟨evs, rfl⟩ := h
  exact writableInv_runEvents evs (fun hcontra => absurd hcontra (by decide)) hw

/-- C5 (witness): a reachable state with `writable = true` — after
Established(1) then an empty-queue Writable event — indeed has an empty
queue. -/
theorem C5_writable_implies_queue_empty_witness :
    connectedWritableWS.enqueued_messages = [] :=
  C5_writable_implies_queue_empty connectedWritableWS
    ⟨[WsEvent.established 1, WsEvent.writable], rfl⟩ (by decide)

/-- Every event other than Established leaves the connection handle as it
was: the handle is stored only by the Established branch, and in particular
neither disconnect branch nor the watchdog's connect attempt clears or sets
it. -/
theorem handle_applyEvent (s : WebSocket) (e : WsEvent)
    (h : isEstablishedEvent e = false) : (applyEvent s e).handle = s.handle := by
  cases e with
  | sendAsync m =>
    by_cases hw : s.writable = true <;>
      simp [applyEvent, WebSocket.SendAsync, hw,
        WebSocket.WriteMessageToWebSocket, WebSocket.EnqueueMessage]
  | established wsi => simp [isEstablishedEvent] at h
  | connectionError => rfl
  | closed => rfl
  | receive m => rfl
  | writable =>
    by_cases hq : WebSocket.HasEnqueuedMessages s = true <;>
      simp [applyEvent, WebSocket.onWritable, hq,
        WebSocket.RemoveOldestEnqueuedMessage, WebSocket.WriteMessageToWebSocket]
  | watchdog ctx hdl =>
    by_cases hs : s.connection_state = WebSocketConnectState.DISCONNECTED
    · cases hdl <;>
        simp [applyEvent, WebSocket.runWatchdogIteration,
          WebSocket.runWatchdogDisconnectedBody, hs]
    · simp [applyEvent, WebSocket.runWatchdogIteration, hs]

/-- Along any trace, the handle is non-null exactly when it was already
non-null or some Established event occurred. -/
theorem handle_runEvents (evs : List WsEvent) (s : WebSocket) :
    (runEvents s evs).handle ≠ none ↔
      (s.handle ≠ none ∨ evs.any isEstablishedEvent = true) := by
  induction evs generalizing s with
  | nil => simp [runEvents]
  | cons e rest ih =>
    have hstep : runEvents s (e :: rest) = runEvents (applyEvent s e) rest := rfl
    rw [hstep, ih (applyEvent s e)]
    cases e with
    | established wsi =>
      simp [applyEvent, WebSocket.onEstablished, isEstablishedEvent]
    | sendAsync m =>
      rw [handle_applyEvent s (WsEvent.sendAsync m) rfl]
      simp [isEstablishedEvent, or_assoc]
    | connectionError =>
      rw [handle_applyEvent s WsEvent.connectionError rfl]
      simp [isEstablishedEvent, or_assoc]
    | closed =>
      rw [handle_applyEvent s WsEvent.closed rfl]
      simp [isEstablishedEvent, or_assoc]
    | receive m =>
      rw [handle_applyEvent s (WsEvent.receive m) rfl]
      simp [isEstablishedEvent, or_assoc]
    | writable =>
      rw [handle_applyEvent s WsEvent.writable rfl]
      simp [isEstablishedEvent, or_assoc]
    | watchdog ctx hdl =>
      rw [handle_applyEvent s (WsEvent.watchdog ctx hdl) rfl]
      simp [isEstablishedEvent, or_assoc]

/-- C6 (counterexample): the trace Established(1); Closed is reachable and
leaves the stale handle `some 1` in place while the connection state is
`DISCONNECTED` — refuting "whenever state == Disconnected the handle is
null", since the disconnect branches never clear the handle. -/
theorem C6_counterexample :
    ReachableWS c6BadState ∧ c6BadState.handle = some 1 ∧
    c6BadState.connection_state = WebSocketConnectState.DISCONNECTED :=
  ⟨⟨[WsEvent.established 1, WsEvent.closed], rfl⟩, rfl, rfl⟩

/-- C6 (amended): starting from the freshly constructed session (null
handle, Disconnected), the handle is non-null exactly when some Established
event has occurred in the trace; it is not tied to the current state — in
particular it may remain non-null (stale) while state is Disconnected, and
the watchdog's connect attempt never stores a handle. -/
theorem C6_handle_iff_established (evs : List WsEvent) :
    (runEvents initialWebSocket evs).handle ≠ none ↔
      evs.any isEstablishedEvent = true := by
  rw [handle_runEvents]
  simp [initialWebSocket, WebSocket.mk0]

/-- C7: a watchdog iteration taken while Disconnected stores the freshly
created context as the session's context and attempts the connect; the state
becomes `CONNECTING` exactly when the connect attempt returned a handle,
stays `DISCONNECTED` otherwise, and the handle, writability, outbound queue
and transport transcript are untouched. -/
theorem C7_watchdog_disconnected (s : WebSocket) (ctx : Nat)
    (connectHandle : Option Nat)
    (h : s.connection_state = WebSocketConnectState.DISCONNECTED) :
    (s.runWatchdogIteration ctx connectHandle).context = some ctx ∧
    ((s.runWatchdogIteration ctx connectHandle).connection_state
        = WebSocketConnectState.CONNECTING ↔ connectHandle.isSome = true) ∧
    (connectHandle = none →
      (s.runWatchdogIteration ctx connectHandle).connection_state
        = WebSocketConnectState.DISCONNECTED) ∧
    (s.runWatchdogIteration ctx connectHandle).handle = s.handle ∧
    (s.runWatchdogIteration ctx connectHandle).writable = s.writable ∧
    (s.runWatchdogIteration ctx connectHandle).enqueued_messages
      = s.enqueued_messages ∧
    (s.runWatchdogIteration ctx connectHandle).writes = s.writes := by
  cases connectHandle <;>
    simp [WebSocket.runWatchdogIteration, WebSocket.runWatchdogDisconnectedBody, h]

/-- C7 (witness): a successful connect attempt from the fresh session stores
the context and moves to `CONNECTING`; a failed one stays `DISCONNECTED`. -/
theorem C7_watchdog_disconnected_witness :
    (initialWebSocket.runWatchdogIteration 7 (some 3)).context = some 7 ∧
    (initialWebSocket.runWatchdogIteration 7 (some 3)).connection_state
      = WebSocketConnectState.CONNECTING ∧
    (initialWebSocket.runWatchdogIteration 7 none).connection_state
      = WebSocketConnectState.DISCONNECTED :=
  ⟨(C7_watchdog_disconnected initialWebSocket 7 (some 3) rfl).1,
   (C7_watchdog_disconnected initialWebSocket 7 (some 3) rfl).2.1.mpr rfl,
   (C7_watchdog_disconnected initialWebSocket 7 none rfl).2.2.1 rfl⟩

/-- C9 (counterexample): in the teardown trace the code actually performs,
the drain poll is the very first step (index 0) and the watchdog stop comes
only afterwards (index 2), so the claimed order — stop the watchdog first,
then poll until the queue drains — is false. -/
theorem C9_counterexample :
    closeWebSocketActions.indexOf TeardownAction.pollUntilQueueEmpty = 0 ∧
    closeWebSocketActions.indexOf TeardownAction.stopWatchdog = 2 ∧
    ¬ (closeWebSocketActions.indexOf TeardownAction.stopWatchdog
        < closeWebSocketActions.indexOf TeardownAction.pollUntilQueueEmpty) := by
  decide

/-- C9 (amended): teardown busy-polls until the outbound queue is empty
FIRST, then clears the (already drained) queue, sets the watchdog running
flag to false, joins the watchdog thread, and only then releases the session
resources and the handoff; since the drain poll precedes the queue clear and
every release, no enqueued message is discarded before the queue has
drained. -/
theorem C9_teardown_order :
    closeWebSocketActions.indexOf TeardownAction.pollUntilQueueEmpty
      < closeWebSocketActions.indexOf TeardownAction.clearEnqueuedMessages ∧
    closeWebSocketActions.indexOf TeardownAction.clearEnqueuedMessages
      < closeWebSocketActions.indexOf TeardownAction.stopWatchdog ∧
    closeWebSocketActions.indexOf TeardownAction.stopWatchdog
      < closeWebSocketActions.indexOf TeardownAction.joinWatchdogThread ∧
    closeWebSocketActions.indexOf TeardownAction.joinWatchdogThread
      < closeWebSocketActions.indexOf TeardownAction.releaseHandoff := by
  decide

end JsonRpcClient
